import Mathlib

/-!
Verification development for the D2RSO input/cooldown core.

Shallow embedding of the Python modules `d2rso/input_events.py`,
`d2rso/models.py`, `d2rso/tracker_engine.py` and `d2rso/countdown_service.py`.

Modelling conventions:
* Python `str` values handled here are ASCII, so `str.lower`, `str.casefold`
  and the `[^a-z0-9]` character class are embedded as ASCII-only operations.
* Python `float` time/duration values are embedded as `Rat`; the claims under
  study only involve comparisons and additions of small decimal values that
  floats represent exactly.
* Raw input codes (Python `str | int` after `_extract_raw_code`) are embedded
  as the tagged union `RawCode`.
* Leading underscores of private Python helpers are dropped from Lean names
  (`_normalize_buttons_index` becomes `normalize_buttons_index`, and so on);
  otherwise names follow the source.
-/

/-- ASCII version of `str.lower` on one character. -/
def asciiLowerChar (c : Char) : Char :=
  if 65 ≤ c.toNat ∧ c.toNat ≤ 90 then Char.ofNat (c.toNat + 32) else c

/-- ASCII version of `str.lower` (and of `str.casefold` on ASCII data). -/
def asciiLower (s : String) : String :=
  String.mk (s.data.map asciiLowerChar)

/-- Is this character Python `str.strip` whitespace (ASCII fragment)? -/
def pyIsSpace (c : Char) : Bool :=
  c.toNat = 32 ∨ (9 ≤ c.toNat ∧ c.toNat ≤ 13)

/-- `str.strip()` (ASCII whitespace). -/
def pyStrip (s : String) : String :=
  String.mk (((s.data.dropWhile pyIsSpace).reverse.dropWhile pyIsSpace).reverse)

/-- `str.startswith` on character lists. -/
def strStartsWith (s pre : String) : Bool :=
  pre.data.isPrefixOf s.data

/-- `str.endswith` on character lists. -/
def strEndsWith (s suf : String) : Bool :=
  suf.data.reverse.isPrefixOf s.data.reverse

/-- Drop the first `n` characters (`s[n:]`). -/
def strDrop (s : String) (n : Nat) : String :=
  String.mk (s.data.drop n)

/-- Drop the last `n` characters (`s[:-n]`). -/
def strDropRight (s : String) (n : Nat) : String :=
  String.mk (s.data.take (s.data.length - n))

/-- Character count of a string (`len`). -/
def strLength (s : String) : Nat :=
  s.data.length

/-- Membership in the regex class `[a-z0-9]`. -/
def isLowerAlnum (c : Char) : Bool :=
  (97 ≤ c.toNat ∧ c.toNat ≤ 122) ∨ (48 ≤ c.toNat ∧ c.toNat ≤ 57)

/-- `_simplify_token`: strip, lowercase, and drop every char outside `[a-z0-9]`. -/
def simplify_token (s : String) : String :=
  String.mk ((asciiLower (pyStrip s)).data.filter isLowerAlnum)

/-- Raw code shapes reaching the normalizers: Python `str | int`. -/
inductive RawCode where
  | str (s : String)
  | int (n : Int)
deriving DecidableEq, Repr

/-- Supported input device families (`InputSource`). -/
inductive InputSource where
  | keyboard
  | mouse
  | gamepad
deriving DecidableEq, Repr

/-- The single-quote character, written by code point to keep sources plain. -/
def quoteChar : Char := Char.ofNat 39

/-- The double-quote character, written by code point. -/
def dquoteChar : Char := Char.ofNat 34

/-- The newline character (excluded by the regex `.` metacharacter). -/
def newlineChar : Char := Char.ofNat 10

/-- `_KEYBOARD_PUNCTUATION_ALIASES`: exact-text punctuation lookups. -/
def keyboardPunctuationAliases (s : String) : Option String :=
  if s = "," then some "OemComma"
  else if s = "~" then some "OemTilde"
  else if s = "[" then some "OemOpenBrackets"
  else if s = "]" then some "OemCloseBrackets"
  else if s = ":" then some "OemSemicolon"
  else if s = ";" then some "OemSemicolon"
  else if s = String.mk [quoteChar] then some "OemQuotes"
  else if s = "+" then some "Add"
  else if s = "-" then some "Subtract"
  else none

/-- `_KEYBOARD_ALIASES`: simplified-token keyboard alias table. -/
def keyboardAliases : String → Option String
  | "esc" => some "Escape"
  | "escape" => some "Escape"
  | "enter" => some "Return"
  | "return" => some "Return"
  | "tab" => some "Tab"
  | "back" => some "Back"
  | "backspace" => some "Back"
  | "lshift" => some "LShiftKey"
  | "leftshift" => some "LShiftKey"
  | "shiftl" => some "LShiftKey"
  | "shiftleft" => some "LShiftKey"
  | "shiftlkey" => some "LShiftKey"
  | "rshift" => some "RShiftKey"
  | "rightshift" => some "RShiftKey"
  | "shiftr" => some "RShiftKey"
  | "shiftright" => some "RShiftKey"
  | "shiftrkey" => some "RShiftKey"
  | "lalt" => some "LMenu"
  | "leftalt" => some "LMenu"
  | "altleft" => some "LMenu"
  | "altl" => some "LMenu"
  | "lmenu" => some "LMenu"
  | "ralt" => some "RMenu"
  | "rightalt" => some "RMenu"
  | "altright" => some "RMenu"
  | "altr" => some "RMenu"
  | "rmenu" => some "RMenu"
  | "lcontrol" => some "LControlKey"
  | "leftcontrol" => some "LControlKey"
  | "controlleft" => some "LControlKey"
  | "lctrl" => some "LControlKey"
  | "ctrll" => some "LControlKey"
  | "lcontrolkey" => some "LControlKey"
  | "rcontrol" => some "RControlKey"
  | "rightcontrol" => some "RControlKey"
  | "controlright" => some "RControlKey"
  | "rctrl" => some "RControlKey"
  | "ctrlr" => some "RControlKey"
  | "rcontrolkey" => some "RControlKey"
  | "comma" => some "OemComma"
  | "oemcomma" => some "OemComma"
  | "tilde" => some "OemTilde"
  | "oemtilde" => some "OemTilde"
  | "openbracket" => some "OemOpenBrackets"
  | "leftbracket" => some "OemOpenBrackets"
  | "oemopenbrackets" => some "OemOpenBrackets"
  | "closebracket" => some "OemCloseBrackets"
  | "rightbracket" => some "OemCloseBrackets"
  | "oemclosebrackets" => some "OemCloseBrackets"
  | "semicolon" => some "OemSemicolon"
  | "oemsemicolon" => some "OemSemicolon"
  | "quote" => some "OemQuotes"
  | "apostrophe" => some "OemQuotes"
  | "oemquotes" => some "OemQuotes"
  | "add" => some "Add"
  | "plus" => some "Add"
  | "subtract" => some "Subtract"
  | "minus" => some "Subtract"
  | _ => none

/-- `_MOUSE_INDEX_TO_CODE`. -/
def mouseIndexToCode (n : Int) : Option String :=
  if n = 0 then some "MOUSE1"
  else if n = 1 then some "MOUSE2"
  else if n = 2 then some "MOUSE3"
  else if n = 3 then some "MOUSEX1"
  else if n = 4 then some "MOUSEX2"
  else none

/-- `_MOUSE_ALIASES`. -/
def mouseAliases : String → Option String
  | "mouse1" => some "MOUSE1"
  | "left" => some "MOUSE1"
  | "lbutton" => some "MOUSE1"
  | "buttonleft" => some "MOUSE1"
  | "button1" => some "MOUSE1"
  | "mouse2" => some "MOUSE2"
  | "right" => some "MOUSE2"
  | "rbutton" => some "MOUSE2"
  | "buttonright" => some "MOUSE2"
  | "button2" => some "MOUSE2"
  | "mouse3" => some "MOUSE3"
  | "middle" => some "MOUSE3"
  | "mbutton" => some "MOUSE3"
  | "buttonmiddle" => some "MOUSE3"
  | "button3" => some "MOUSE3"
  | "mousex1" => some "MOUSEX1"
  | "x1" => some "MOUSEX1"
  | "xbutton1" => some "MOUSEX1"
  | "buttonx1" => some "MOUSEX1"
  | "button4" => some "MOUSEX1"
  | "mousex2" => some "MOUSEX2"
  | "x2" => some "MOUSEX2"
  | "xbutton2" => some "MOUSEX2"
  | "buttonx2" => some "MOUSEX2"
  | "button5" => some "MOUSEX2"
  | _ => none

/-- Is every character an ASCII digit (nonempty `\d+`)? -/
def allDigits (cs : List Char) : Bool :=
  !cs.isEmpty && cs.all fun c => 48 ≤ c.toNat ∧ c.toNat ≤ 57

/-- Decimal value of a digit string (`int(...)` on a `\d+` match). -/
def digitsToNat (cs : List Char) : Nat :=
  cs.foldl (fun a c => a * 10 + (c.toNat - 48)) 0

/-- `_FUNCTION_KEY_RE` (`^f(\d{1,2})$`): the captured number on match. -/
def functionKeyMatch (token : String) : Option Nat :=
  match token.data with
  | 'f' :: rest =>
      if (rest.length = 1 ∨ rest.length = 2) ∧ allDigits rest then
        some (digitsToNat rest)
      else none
  | _ => none

/-- `_NUMPAD_KEY_RE` (`^(?:numpad|num)(\d)$`): the captured digit on match. -/
def numpadKeyMatch (token : String) : Option Nat :=
  match token.data with
  | 'n' :: 'u' :: 'm' :: 'p' :: 'a' :: 'd' :: rest =>
      if rest.length = 1 ∧ allDigits rest then some (digitsToNat rest) else none
  | 'n' :: 'u' :: 'm' :: rest =>
      if rest.length = 1 ∧ allDigits rest then some (digitsToNat rest) else none
  | _ => none

/-- `_D_KEY_RE` (`^d(\d)$`): the captured digit on match. -/
def dKeyMatch (token : String) : Option Nat :=
  match token.data with
  | 'd' :: rest =>
      if rest.length = 1 ∧ allDigits rest then some (digitsToNat rest) else none
  | _ => none

/-- `_BUTTONS_CODE_RE` (`^buttons(\d+)$`). -/
def buttonsCodeMatch (token : String) : Option Nat :=
  match token.data with
  | 'b' :: 'u' :: 't' :: 't' :: 'o' :: 'n' :: 's' :: rest =>
      if allDigits rest then some (digitsToNat rest) else none
  | _ => none

/-- `_GAMEPAD_BUTTON_RE` (`^(?:gamepad)?button(\d+)$`). -/
def gamepadButtonMatch (token : String) : Option Nat :=
  match token.data with
  | 'g' :: 'a' :: 'm' :: 'e' :: 'p' :: 'a' :: 'd' :: 'b' :: 'u' :: 't' :: 't'
      :: 'o' :: 'n' :: rest =>
      if allDigits rest then some (digitsToNat rest) else none
  | 'b' :: 'u' :: 't' :: 't' :: 'o' :: 'n' :: rest =>
      if allDigits rest then some (digitsToNat rest) else none
  | _ => none

/-- `_DIRECT_INPUT_BUTTON_RE` (`^joystickoffsetbuttons(\d+)$`). -/
def directInputButtonMatch (token : String) : Option Nat :=
  if strStartsWith token "joystickoffsetbuttons" ∧
      allDigits (strDrop token 21).data then
    some (digitsToNat (strDrop token 21).data)
  else none

/-- `_normalize_buttons_index`: the legacy 48-57 remap plus pass-through. -/
def normalize_buttons_index (value : Int) : Option String :=
  if 48 ≤ value ∧ value ≤ 57 then some ("Buttons" ++ toString (value - 48))
  else if 0 ≤ value then some ("Buttons" ++ toString value)
  else none

/-- Integer branch of `normalize_keyboard_code` (virtual-key values). -/
def normalize_keyboard_int (n : Int) : Option String :=
  if 65 ≤ n ∧ n ≤ 90 then some (String.mk [Char.ofNat n.toNat])
  else if 48 ≤ n ∧ n ≤ 57 then some ("D" ++ toString (n - 48))
  else none

/-- Strip the first matching prefix among `key.`, `keys.`, `keyboard.`
(case-insensitively, slicing the original text as the source does). -/
def stripKeyboardNamespaces (text : String) : String :=
  let lowered := asciiLower text
  if strStartsWith lowered "key." then strDrop text 4
  else if strStartsWith lowered "keys." then strDrop text 5
  else if strStartsWith lowered "keyboard." then strDrop text 9
  else text

/-- `_KEYCODE_CHAR_RE` applied to the lowered text: `^keycode\(char=['\x22](.)['\x22]\)$`
with the two quote classes independent and `.` excluding newline. -/
def keycodeCharMatch (lowered : String) : Option Char :=
  match lowered.data with
  | 'k' :: 'e' :: 'y' :: 'c' :: 'o' :: 'd' :: 'e' :: '(' :: 'c' :: 'h' :: 'a'
      :: 'r' :: '=' :: q1 :: c :: q2 :: ')' :: [] =>
      if (q1 = quoteChar ∨ q1 = dquoteChar) ∧ (q2 = quoteChar ∨ q2 = dquoteChar)
          ∧ c ≠ newlineChar then
        some c
      else none
  | _ => none

/-- `_KEYCODE_VK_RE` applied to the lowered text: `^keycode\(vk=(\d+)\)$`. -/
def keycodeVkMatch (lowered : String) : Option Nat :=
  if strStartsWith lowered "keycode(vk=" ∧ strEndsWith lowered ")" ∧
      allDigits (strDropRight (strDrop lowered 11) 1).data then
    some (digitsToNat (strDropRight (strDrop lowered 11) 1).data)
  else none

/-- Token-stage tail of `normalize_keyboard_code` (after alias/regex text fixes). -/
def normalize_keyboard_token (token : String) : Option String :=
  if token = "" then none
  else
    match keyboardAliases token with
    | some a => some a
    | none =>
        match functionKeyMatch token with
        | some n => some ("F" ++ toString n)
        | none =>
            match numpadKeyMatch token with
            | some n => some ("NumPad" ++ toString n)
            | none =>
                match dKeyMatch token with
                | some n => some ("D" ++ toString n)
                | none =>
                    if strLength token = 1 ∧ isLowerAlnum token.data.headI ∧
                        ¬ (48 ≤ token.data.headI.toNat ∧ token.data.headI.toNat ≤ 57)
                    then some (String.mk [Char.ofNat (token.data.headI.toNat - 32)])
                    else if strLength token = 1 ∧
                        (48 ≤ token.data.headI.toNat ∧ token.data.headI.toNat ≤ 57)
                    then some ("D" ++ token)
                    else if strStartsWith token "vk" ∧ allDigits (strDrop token 2).data
                    then normalize_keyboard_int (Int.ofNat (digitsToNat (strDrop token 2).data))
                    else none

/-- Final text stage of `normalize_keyboard_code`:
quoted-char unwrap, second punctuation lookup, then the token stage. -/
def normalizeKeyboardTextStage (text : String) : Option String :=
  let text :=
    if strLength text = 3 ∧ text.data.headI = text.data.getLastI ∧
        (text.data.headI = quoteChar ∨ text.data.headI = dquoteChar) then
      String.mk [text.data.getI 1]
    else text
  match keyboardPunctuationAliases text with
  | some a => some a
  | none => normalize_keyboard_token (simplify_token text)

/-- String branch of `normalize_keyboard_code`. -/
def normalize_keyboard_str (s : String) : Option String :=
  let text0 := pyStrip s
  if text0 = "" then none
  else
    match keyboardPunctuationAliases text0 with
    | some a => some a
    | none =>
        let text1 := stripKeyboardNamespaces text0
        let lowered := asciiLower text1
        match keycodeCharMatch lowered with
        | some c => normalizeKeyboardTextStage (String.mk [c])
        | none =>
            match keycodeVkMatch lowered with
            | some vk => normalize_keyboard_int (Int.ofNat vk)
            | none => normalizeKeyboardTextStage text1

/-- `normalize_keyboard_code` over the raw tagged union. -/
def normalize_keyboard_code : RawCode → Option String
  | .int n => normalize_keyboard_int n
  | .str s => normalize_keyboard_str s

/-- `normalize_mouse_code` over the raw tagged union. -/
def normalize_mouse_code : RawCode → Option String
  | .int n => mouseIndexToCode n
  | .str s =>
      let token := simplify_token s
      if token = "" then none
      else
        match mouseAliases token with
        | some a => some a
        | none =>
            if allDigits token.data then
              mouseIndexToCode (Int.ofNat (digitsToNat token.data))
            else if strStartsWith token "mousex" ∧ allDigits (strDrop token 6).data then
              let index := digitsToNat (strDrop token 6).data
              if index = 1 ∨ index = 2 then some ("MOUSEX" ++ toString index)
              else none
            else if strStartsWith token "mouse" ∧ allDigits (strDrop token 5).data then
              mouseIndexToCode (Int.ofNat (digitsToNat (strDrop token 5).data) - 1)
            else none

/-- `normalize_gamepad_code` over the raw tagged union. -/
def normalize_gamepad_code : RawCode → Option String
  | .int n => normalize_buttons_index n
  | .str s =>
      let token0 := simplify_token s
      if token0 = "" then none
      else
        let token :=
          if strStartsWith token0 "joystickoffset" then strDrop token0 14 else token0
        match buttonsCodeMatch token with
        | some n => normalize_buttons_index (Int.ofNat n)
        | none =>
            match gamepadButtonMatch token with
            | some n => normalize_buttons_index (Int.ofNat n)
            | none =>
                match directInputButtonMatch token with
                | some n => normalize_buttons_index (Int.ofNat n)
                | none =>
                    if strStartsWith token "button" ∧ allDigits (strDrop token 6).data then
                      normalize_buttons_index (Int.ofNat (digitsToNat (strDrop token 6).data))
                    else if allDigits token.data then
                      normalize_buttons_index (Int.ofNat (digitsToNat token.data))
                    else none

/-- `str.removeprefix`: drop the prefix only when present (exact case). -/
def removeExactHead (pre s : String) : String :=
  if strStartsWith s pre then strDrop s (strLength pre) else s

/-- `infer_input_source_from_code`. -/
def infer_input_source_from_code : RawCode → Option InputSource
  | .int n =>
      if (mouseIndexToCode n).isSome then some .mouse
      else if (normalize_buttons_index n).isSome then some .gamepad
      else none
  | .str s =>
      let text := pyStrip s
      if text = "" then none
      else
        let token := simplify_token (removeExactHead "key." (removeExactHead "Key." text))
        if (mouseAliases token).isSome ∨ strStartsWith token "mouse" then some .mouse
        else if (buttonsCodeMatch token).isSome ∨ (gamepadButtonMatch token).isSome ∨
            (directInputButtonMatch token).isSome then some .gamepad
        else if strStartsWith token "joystickoffsetbuttons" then some .gamepad
        else some .keyboard

/-- `normalize_input_code` with an optional already-resolved source hint. -/
def normalize_input_code (raw : RawCode) (source : Option InputSource) : Option String :=
  let resolved :=
    match source with
    | some s => some s
    | none => infer_input_source_from_code raw
  match resolved with
  | none => none
  | some .keyboard => normalize_keyboard_code raw
  | some .mouse => normalize_mouse_code raw
  | some .gamepad => normalize_gamepad_code raw

/-- Normalized event shape consumed by the tracker logic (`InputEvent`);
the timestamp field is irrelevant to the tracked claims and omitted. -/
structure InputEvent where
  code : String
  source : InputSource
  pressed : Bool := true
deriving DecidableEq, Repr

/-- A skill configuration row (`SkillItem`); GUI-only fields
(`profile_id`, `icon_file_name`, `time_length`) are omitted. -/
structure SkillItem where
  id : Int := 0
  is_enabled : Bool := true
  select_key : Option String := none
  skill_key : Option String := some "MOUSE2"
  select_key_held : Bool := false
deriving DecidableEq, Repr

/-- `SkillItem.skill_key_pressed`: should this press trigger the cooldown? -/
def SkillItem.skill_key_pressed (item : SkillItem) : Bool :=
  item.select_key.isNone || item.select_key_held

/-- `SkillItem.select_key_pressed`: arm the held flag for combo skills. -/
def SkillItem.select_key_pressed (item : SkillItem) : SkillItem :=
  if item.select_key.isSome then { item with select_key_held := true } else item

/-- `SkillItem.select_key_released`: clear the held flag. -/
def SkillItem.select_key_released (item : SkillItem) : SkillItem :=
  { item with select_key_held := false }

/-- `_matches_event_code`: does a configured key match a normalized event? -/
def matches_event_code (config_code : Option String) (event : InputEvent) : Bool :=
  match config_code with
  | none => false
  | some code =>
      let source := (infer_input_source_from_code (.str code)).getD event.source
      match normalize_input_code (.str code) (some source) with
      | none => false
      | some normalized => asciiLower normalized = asciiLower event.code

/-- `TrackerInputEngine.process_event`: consume one event, returning the
triggered skills and the updated skill list (the Python engine mutates the
items in place; ids are never mutated, so triggered entries are compared by
id in the claims below). -/
def process_event (skill_items : List SkillItem) (event : InputEvent) :
    List SkillItem × List SkillItem :=
  if !event.pressed then
    ([],
     skill_items.map fun item =>
       if item.is_enabled ∧ matches_event_code item.select_key event then
         item.select_key_released
       else item)
  else
    let triggered := skill_items.filter fun item =>
      item.is_enabled ∧ matches_event_code item.skill_key event ∧
        item.skill_key_pressed
    let updated := skill_items.map fun item =>
      if item.is_enabled ∧ matches_event_code item.select_key event then
        item.select_key_pressed
      else item
    (triggered, updated)

/-- Event types emitted by the countdown lifecycle service. -/
inductive CountdownEventType where
  | updated
  | removed
deriving DecidableEq, Repr

/-- Immutable event payload emitted for countdown updates/removals. -/
structure CountdownEvent where
  type : CountdownEventType
  skill_id : Int
  duration_seconds : Rat
  remaining_seconds : Rat
  completed : Bool := false
deriving DecidableEq, Repr

/-- `_CountdownState`: one timer's schedule. -/
structure CountdownState where
  skill_id : Int
  duration_seconds : Rat
  started_at : Rat
  ends_at : Rat
deriving DecidableEq, Repr

/-- `_CountdownState.remaining_seconds`. -/
def CountdownState.remaining_seconds (st : CountdownState) (now : Rat) : Rat :=
  max 0 (st.ends_at - now)

/-- Insertion-ordered dict lookup (`dict.get`). -/
def dictGet (states : List (Int × CountdownState)) (sid : Int) :
    Option CountdownState :=
  (states.find? fun p => p.1 = sid).map Prod.snd

/-- Insertion-ordered dict removal (`dict.pop(sid, None)` discarding the value). -/
def dictPop (states : List (Int × CountdownState)) (sid : Int) :
    List (Int × CountdownState) :=
  states.filter fun p => p.1 ≠ sid

/-- Insertion-ordered dict write: update in place when the key exists
(the in-place `_CountdownState.refresh`), else append (`dict.__setitem__`). -/
def dictSet (states : List (Int × CountdownState)) (sid : Int)
    (st : CountdownState) : List (Int × CountdownState) :=
  if (states.find? fun p => p.1 = sid).isSome then
    states.map fun p => if p.1 = sid then (sid, st) else p
  else states ++ [(sid, st)]

/-- `CountdownService`: the insertion-ordered `skill_id -> _CountdownState` map.
Subscribers receive exactly the returned events, in order, so the subscriber
list is not modelled separately. -/
structure CountdownService where
  states : List (Int × CountdownState) := []
deriving DecidableEq, Repr

/-- `CountdownService.active_count`. -/
def CountdownService.active_count (svc : CountdownService) : Nat :=
  svc.states.length

/-- `CountdownService.refresh`: start or restart a countdown by skill id.
`now` is the explicit tick argument (`_resolve_now` with a supplied value);
the `ValueError` from `_validate_duration` is embedded as `Except.error`. -/
def CountdownService.refresh (svc : CountdownService) (skill_id : Int)
    (duration_seconds : Rat) (now : Rat) :
    Except String (CountdownService × CountdownEvent) :=
  if duration_seconds < 0 then .error "duration_seconds must be >= 0"
  else if duration_seconds = 0 then
    .ok (⟨dictPop svc.states skill_id⟩,
      { type := .removed, skill_id := skill_id, duration_seconds := 0,
        remaining_seconds := 0, completed := true })
  else
    let st : CountdownState :=
      { skill_id := skill_id, duration_seconds := duration_seconds,
        started_at := now, ends_at := now + duration_seconds }
    .ok (⟨dictSet svc.states skill_id st⟩,
      { type := .updated, skill_id := skill_id,
        duration_seconds := st.duration_seconds,
        remaining_seconds := st.remaining_seconds now, completed := false })

/-- The `REMOVED` event built for an expired timer inside `emit_updates`. -/
def expiredRemovalEvent (p : Int × CountdownState) : CountdownEvent :=
  { type := .removed, skill_id := p.1,
    duration_seconds := p.2.duration_seconds,
    remaining_seconds := 0, completed := true }

/-- The `UPDATED` event built by `_build_updated_event`. -/
def updatedEvent (p : Int × CountdownState) (now : Rat) : CountdownEvent :=
  { type := .updated, skill_id := p.1,
    duration_seconds := p.2.duration_seconds,
    remaining_seconds := p.2.remaining_seconds now, completed := false }

/-- `CountdownService.emit_updates`: one event per active countdown; expired
timers are removed and reported as completed removals. -/
def CountdownService.emit_updates (svc : CountdownService) (now : Rat) :
    CountdownService × List CountdownEvent :=
  let events := svc.states.map fun p =>
    if p.2.remaining_seconds now ≤ 0 then expiredRemovalEvent p
    else updatedEvent p now
  let states := svc.states.filter fun p => ¬ p.2.remaining_seconds now ≤ 0
  (⟨states⟩, events)

/-! ### Dictionary lemmas -/

theorem dictGet_dictPop_self (states : List (Int × CountdownState)) (sid : Int) :
    dictGet (dictPop states sid) sid = none := by
  unfold dictGet dictPop
  simp only [Option.map_eq_none']
  rw [List.find?_eq_none]
  intro x hx
  have hkeep := (List.mem_filter.mp hx).2
  simp only [decide_eq_true_eq] at hkeep ⊢
  exact fun h => hkeep h

theorem dictPop_eq_self_of_get_none (states : List (Int × CountdownState))
    (sid : Int) (h : dictGet states sid = none) :
    dictPop states sid = states := by
  unfold dictGet at h
  rw [Option.map_eq_none'] at h
  rw [List.find?_eq_none] at h
  unfold dictPop
  rw [List.filter_eq_self]
  intro a ha
  have := h a ha
  simp only [decide_eq_true_eq] at this ⊢
  exact this

theorem keys_dictSet_of_found (states : List (Int × CountdownState)) (sid : Int)
    (st : CountdownState) (h : (states.find? fun p => p.1 = sid).isSome) :
    (dictSet states sid st).map Prod.fst = states.map Prod.fst := by
  unfold dictSet
  rw [if_pos h, List.map_map]
  apply List.map_congr_left
  intro p _
  by_cases hp : p.1 = sid
  · simp [hp]
  · simp [hp]

theorem not_mem_keys_of_find_none (states : List (Int × CountdownState))
    (sid : Int) (h : (states.find? fun p => p.1 = sid) = none) :
    sid ∉ states.map Prod.fst := by
  rw [List.find?_eq_none] at h
  intro hmem
  obtain ⟨p, hp, hfst⟩ := List.mem_map.mp hmem
  have := h p hp
  simp only [decide_eq_true_eq] at this
  exact this hfst

/-! ### Countdown service theorems -/

/-- C2: `refresh` never yields two active timers for one skill id: it preserves
distinctness of the timer keys, and when the id is already active with a
positive duration it replaces the schedule in place, keeping `active_count`
unchanged (so refreshing id 7 twice leaves `active_count = 1` both times). -/
theorem countdown_refresh_unique_active_timer (svc : CountdownService)
    (sid : Int) (d now : Rat) (svc' : CountdownService) (ev : CountdownEvent)
    (hnodup : (svc.states.map Prod.fst).Nodup)
    (h : svc.refresh sid d now = .ok (svc', ev)) :
    (svc'.states.map Prod.fst).Nodup ∧
      ((dictGet svc.states sid).isSome → 0 < d →
        svc'.active_count = svc.active_count) := by
  unfold CountdownService.refresh at h
  by_cases hneg : d < 0
  · rw [if_pos hneg] at h
    cases h
  rw [if_neg hneg] at h
  by_cases hzero : d = 0
  · rw [if_pos hzero] at h
    simp only [Except.ok.injEq, Prod.mk.injEq] at h
    obtain ⟨h1, h2⟩ := h
    subst h1
    constructor
    · exact hnodup.sublist ((List.filter_sublist _).map Prod.fst)
    · intro _ hd
      exact absurd hd (by simp [hzero])
  · rw [if_neg hzero] at h
    simp only [Except.ok.injEq, Prod.mk.injEq] at h
    obtain ⟨h1, h2⟩ := h
    subst h1
    by_cases hfound : ((svc.states.find? fun p => p.1 = sid)).isSome
    · constructor
      · rw [keys_dictSet_of_found _ _ _ hfound]
        exact hnodup
      · intro _ _
        show (dictSet svc.states sid _).length = svc.states.length
        unfold dictSet
        rw [if_pos hfound, List.length_map]
    · rw [Option.not_isSome_iff_eq_none] at hfound
      constructor
      · unfold dictSet
        rw [if_neg (by simp [hfound]), List.map_append]
        simp only [List.map_cons, List.map_nil]
        rw [List.nodup_append]
        exact ⟨hnodup, List.nodup_singleton sid,
          by simpa using fun hmem => not_mem_keys_of_find_none _ _ hfound hmem⟩
      · intro hsome _
        unfold dictGet at hsome
        rw [hfound] at hsome
        cases hsome

/-- C2 witness: refreshing skill id 7 (duration 5) when it is already the one
active timer keeps the key set duplicate-free and `active_count` at 1. -/
theorem countdown_refresh_unique_active_timer_witness :
    (([((7 : Int), (⟨7, 5, 1, 6⟩ : CountdownState))].map Prod.fst).Nodup) ∧
      ((dictGet [((7 : Int), (⟨7, 5, 0, 5⟩ : CountdownState))] 7).isSome →
        0 < (5 : Rat) →
        CountdownService.active_count ⟨[(7, ⟨7, 5, 1, 6⟩)]⟩ =
          CountdownService.active_count ⟨[(7, ⟨7, 5, 0, 5⟩)]⟩) :=
  countdown_refresh_unique_active_timer ⟨[(7, ⟨7, 5, 0, 5⟩)]⟩ 7 5 1
    ⟨[(7, ⟨7, 5, 1, 6⟩)]⟩ ⟨.updated, 7, 5, 5, false⟩ (by decide)
    (by norm_num [CountdownService.refresh, dictSet,
      CountdownState.remaining_seconds])

/-- C7: `refresh` with duration 0 removes any timer for the id, returns the
single `Removed` event with `completed = true` and `remaining_seconds = 0`,
and the resulting state holds no timer for that id. -/
theorem countdown_refresh_zero_removes_and_emits (svc : CountdownService)
    (sid : Int) (now : Rat) :
    svc.refresh sid 0 now =
      .ok (⟨dictPop svc.states sid⟩,
        { type := .removed, skill_id := sid, duration_seconds := 0,
          remaining_seconds := 0, completed := true }) ∧
    dictGet (dictPop svc.states sid) sid = none := by
  constructor
  · unfold CountdownService.refresh
    rw [if_neg (by norm_num), if_pos rfl]
  · exact dictGet_dictPop_self svc.states sid

/-- C8: `refresh` rejects a negative duration with the validation error; no
state/event pair is produced, so no timer is created and nothing is emitted. -/
theorem countdown_refresh_negative_rejected (svc : CountdownService)
    (sid : Int) (d now : Rat) (h : d < 0) :
    svc.refresh sid d now = .error "duration_seconds must be >= 0" := by
  unfold CountdownService.refresh
  rw [if_pos h]

/-- C8 witness: `refresh(id=5, duration=-1.0)` is rejected. -/
theorem countdown_refresh_negative_rejected_witness :
    CountdownService.refresh ⟨[]⟩ 5 (-1) 0 =
      .error "duration_seconds must be >= 0" :=
  countdown_refresh_negative_rejected ⟨[]⟩ 5 (-1) 0 (by norm_num)

/-- C10: even when no timer exists for the id, a zero-duration `refresh`
still emits the `Removed{completed, remaining 0}` event, unconditionally,
and leaves the timer map unchanged. -/
theorem countdown_refresh_zero_emits_without_timer (svc : CountdownService)
    (sid : Int) (now : Rat) (h : dictGet svc.states sid = none) :
    svc.refresh sid 0 now =
      .ok (svc,
        { type := .removed, skill_id := sid, duration_seconds := 0,
          remaining_seconds := 0, completed := true }) := by
  have hpop := dictPop_eq_self_of_get_none svc.states sid h
  unfold CountdownService.refresh
  rw [if_neg (by norm_num), if_pos rfl, hpop]

/-- C10 witness: on the empty service, `refresh(id=3, 0)` still returns the
completed removal event. -/
theorem countdown_refresh_zero_emits_without_timer_witness :
    CountdownService.refresh ⟨[]⟩ 3 0 2 =
      .ok (⟨[]⟩,
        { type := .removed, skill_id := 3, duration_seconds := 0,
          remaining_seconds := 0, completed := true }) :=
  countdown_refresh_zero_emits_without_timer ⟨[]⟩ 3 2 (by rfl)

theorem filter_key_eq_of_nodup (states : List (Int × CountdownState))
    (sid : Int) (st : CountdownState)
    (hnodup : (states.map Prod.fst).Nodup) (hmem : (sid, st) ∈ states) :
    states.filter (fun p => p.1 = sid) = [(sid, st)] := by
  induction states with
  | nil => cases hmem
  | cons p rest ih =>
      rw [List.map_cons, List.nodup_cons] at hnodup
      rcases List.mem_cons.mp hmem with h | h
      · subst h
        rw [List.filter_cons_of_pos (by simp)]
        have hnil : rest.filter (fun p => p.1 = sid) = [] := by
          rw [List.filter_eq_nil_iff]
          intro a ha
          simp only [decide_eq_true_eq]
          intro hak
          have hmm := List.mem_map_of_mem Prod.fst ha
          rw [hak] at hmm
          exact hnodup.1 hmm
        rw [hnil]
      · have hne : ¬ p.1 = sid := by
          intro hpe
          exact hnodup.1 (by
            have := List.mem_map_of_mem Prod.fst h
            simpa [hpe] using this)
        rw [List.filter_cons_of_neg (by simpa using hne)]
        exact ih hnodup.2 h

theorem dictGet_filter_of_nodup (states : List (Int × CountdownState))
    (keep : Int × CountdownState → Bool) (sid : Int) (st : CountdownState)
    (hnodup : (states.map Prod.fst).Nodup) (hmem : (sid, st) ∈ states) :
    dictGet (states.filter keep) sid =
      (if keep (sid, st) then some st else none) := by
  induction states with
  | nil => cases hmem
  | cons p rest ih =>
      rw [List.map_cons, List.nodup_cons] at hnodup
      rcases List.mem_cons.mp hmem with h | h
      · subst h
        by_cases hk : keep (sid, st) = true
        · rw [List.filter_cons, if_pos hk, if_pos hk]
          unfold dictGet
          rw [List.find?_cons_of_pos _ (by simp)]
          rfl
        · rw [List.filter_cons, if_neg hk, if_neg hk]
          unfold dictGet
          rw [Option.map_eq_none']
          rw [List.find?_eq_none]
          intro x hx
          have hxr := List.mem_of_mem_filter hx
          simp only [decide_eq_true_eq]
          intro hxe
          have hmm := List.mem_map_of_mem Prod.fst hxr
          rw [hxe] at hmm
          exact hnodup.1 hmm
      · have hne : ¬ p.1 = sid := by
          intro hpe
          exact hnodup.1 (by
            have := List.mem_map_of_mem Prod.fst h
            simpa [hpe] using this)
        by_cases hk : keep p = true
        · rw [List.filter_cons, if_pos hk]
          unfold dictGet
          rw [List.find?_cons_of_neg _ (by simpa using hne)]
          exact ih hnodup.2 h
        · rw [List.filter_cons, if_neg hk]
          exact ih hnodup.2 h

/-- C9: within one `emit_updates` call, every active timer produces exactly
one event carrying its skill id: a completed `Removed{remaining 0}` when its
remaining time is `<= 0` (and the timer leaves the active set), otherwise an
`Updated` with the remaining time (and the timer stays). -/
theorem emit_updates_one_event_per_timer (svc : CountdownService) (now : Rat)
    (sid : Int) (st : CountdownState)
    (hnodup : (svc.states.map Prod.fst).Nodup)
    (hmem : (sid, st) ∈ svc.states) :
    ((svc.emit_updates now).2.filter (fun ev => ev.skill_id = sid) =
      [if st.remaining_seconds now ≤ 0 then expiredRemovalEvent (sid, st)
       else updatedEvent (sid, st) now]) ∧
    dictGet (svc.emit_updates now).1.states sid =
      (if st.remaining_seconds now ≤ 0 then none else some st) := by
  constructor
  · show (svc.states.map fun p =>
        if p.2.remaining_seconds now ≤ 0 then expiredRemovalEvent p
        else updatedEvent p now).filter (fun ev => ev.skill_id = sid) = _
    rw [List.filter_map]
    have hcongr : svc.states.filter
        ((fun ev => decide (ev.skill_id = sid)) ∘ fun p =>
          if p.2.remaining_seconds now ≤ 0 then expiredRemovalEvent p
          else updatedEvent p now) =
        svc.states.filter (fun p => p.1 = sid) := by
      apply List.filter_congr
      intro p _
      by_cases hp : p.2.remaining_seconds now ≤ 0 <;>
        simp [hp, expiredRemovalEvent, updatedEvent]
    rw [hcongr, filter_key_eq_of_nodup svc.states sid st hnodup hmem]
    by_cases hst : st.remaining_seconds now ≤ 0 <;> simp [hst]
  · show dictGet (svc.states.filter fun p =>
        ¬ p.2.remaining_seconds now ≤ 0) sid = _
    rw [dictGet_filter_of_nodup svc.states _ sid st hnodup hmem]
    by_cases hst : st.remaining_seconds now ≤ 0 <;> simp [hst]

/-- C9 witness: skill 1 (1s duration) and skill 2 (3s duration), both started
at 0, observed at tick 1.5: skill 2 gets exactly one `Updated{remaining 1.5}`
and stays active. -/
theorem emit_updates_one_event_per_timer_witness :
    ((CountdownService.emit_updates
        ⟨[((1 : Int), ⟨1, 1, 0, 1⟩), (2, ⟨2, 3, 0, 3⟩)]⟩ (3/2)).2.filter
          (fun ev => ev.skill_id = 2) =
      [if (⟨2, 3, 0, 3⟩ : CountdownState).remaining_seconds (3/2) ≤ 0
       then expiredRemovalEvent (2, ⟨2, 3, 0, 3⟩)
       else updatedEvent (2, ⟨2, 3, 0, 3⟩) (3/2)]) ∧
    dictGet (CountdownService.emit_updates
        ⟨[((1 : Int), ⟨1, 1, 0, 1⟩), (2, ⟨2, 3, 0, 3⟩)]⟩ (3/2)).1.states 2 =
      (if (⟨2, 3, 0, 3⟩ : CountdownState).remaining_seconds (3/2) ≤ 0
       then none else some ⟨2, 3, 0, 3⟩) :=
  emit_updates_one_event_per_timer
    ⟨[((1 : Int), ⟨1, 1, 0, 1⟩), (2, ⟨2, 3, 0, 3⟩)]⟩ (3/2) 2 ⟨2, 3, 0, 3⟩
    (by decide) (by simp)

/-! ### Normalizer claim theorems -/

/-- C6: gamepad normalization of an integer button index: 48-57 are remapped
to `Buttons0`..`Buttons9` by subtracting 48, every other non-negative index
passes through unchanged as `Buttons<n>`, and negative indices give `none`. -/
theorem gamepad_button_index_normalization (n : Int) :
    (48 ≤ n → n ≤ 57 →
      normalize_gamepad_code (.int n) = some ("Buttons" ++ toString (n - 48))) ∧
    (0 ≤ n → (n < 48 ∨ 57 < n) →
      normalize_gamepad_code (.int n) = some ("Buttons" ++ toString n)) ∧
    (n < 0 → normalize_gamepad_code (.int n) = none) := by
  refine ⟨fun h1 h2 => ?_, fun h1 h2 => ?_, fun h => ?_⟩ <;>
    show normalize_buttons_index n = _ <;>
    unfold normalize_buttons_index
  · rw [if_pos ⟨h1, h2⟩]
  · rw [if_neg (by omega), if_pos h1]
  · rw [if_neg (by omega), if_neg (by omega)]

/-- C6 witness: indices 48, 57, 12 and -3. -/
theorem gamepad_button_index_normalization_witness :
    normalize_gamepad_code (.int 48) = some "Buttons0" ∧
    normalize_gamepad_code (.int 57) = some "Buttons9" ∧
    normalize_gamepad_code (.int 12) = some "Buttons12" ∧
    normalize_gamepad_code (.int (-3)) = none :=
  ⟨((gamepad_button_index_normalization 48).1 (by decide) (by decide)).trans
      (by decide),
    ((gamepad_button_index_normalization 57).1 (by decide) (by decide)).trans
      (by decide),
    ((gamepad_button_index_normalization 12).2.1 (by decide)
      (Or.inl (by decide))).trans (by decide),
    (gamepad_button_index_normalization (-3)).2.2 (by decide)⟩

/-- C5 (bug evidence): the canonical left-shift name is not a fixed point of
keyboard normalization: `lshift` normalizes to `LShiftKey` (matching the
repository's own key catalog and tests), but feeding `LShiftKey` back in
returns `none` - the alias table carries `shiftlkey`/`shiftrkey` instead of
`lshiftkey`/`rshiftkey`, unlike the control keys, so idempotence fails. -/
theorem normalize_keyboard_shift_canonical_not_fixed :
    normalize_keyboard_code (.str "lshift") = some "LShiftKey" ∧
    normalize_keyboard_code (.str "left shift") = some "LShiftKey" ∧
    normalize_keyboard_code (.str "LShiftKey") = none ∧
    normalize_keyboard_code (.str "RShiftKey") = none ∧
    normalize_keyboard_code (.str "LControlKey") = some "LControlKey" := by
  decide

/-! ### Tracker engine claim theorems -/

/-- C1: with the single enabled rule `selectKey = Buttons4`,
`skillKey = Buttons0`: a `Buttons0` press before any `Buttons4` press
triggers nothing; after a `Buttons4` press a `Buttons0` press triggers the
rule; after a `Buttons4` release a `Buttons0` press triggers nothing again. -/
theorem tracker_combo_select_hold_sequence :
    (process_event [⟨10, true, some "Buttons4", some "Buttons0", false⟩]
        ⟨"Buttons0", .gamepad, true⟩).1 = [] ∧
    (process_event
        (process_event [⟨10, true, some "Buttons4", some "Buttons0", false⟩]
          ⟨"Buttons4", .gamepad, true⟩).2
        ⟨"Buttons0", .gamepad, true⟩).1.map SkillItem.id = [10] ∧
    (process_event
        (process_event
          (process_event
            (process_event [⟨10, true, some "Buttons4", some "Buttons0", false⟩]
              ⟨"Buttons4", .gamepad, true⟩).2
            ⟨"Buttons0", .gamepad, true⟩).2
          ⟨"Buttons4", .gamepad, false⟩).2
        ⟨"Buttons0", .gamepad, true⟩).1 = [] := by
  decide

/-- `_matches_event_code(None, event)` is always false. -/
theorem matches_event_code_none (e : InputEvent) :
    matches_event_code none e = false := rfl

/-- C3: a rule whose configured skill key and select key both match the same
press event, with the select key not yet held, does not trigger on that
event (the trigger scan runs before select-key arming), but the event arms
it, and an identical second press then triggers it. -/
theorem same_code_rule_arms_without_self_trigger (item : SkillItem)
    (e : InputEvent)
    (hen : item.is_enabled = true)
    (hheld : item.select_key_held = false)
    (hp : e.pressed = true)
    (hskill : matches_event_code item.skill_key e = true)
    (hsel : matches_event_code item.select_key e = true) :
    (process_event [item] e).1 = [] ∧
    (process_event [item] e).2 = [{ item with select_key_held := true }] ∧
    (process_event [{ item with select_key_held := true }] e).1.map
      SkillItem.id = [item.id] := by
  obtain ⟨i, en, sel, sk, held⟩ := item
  simp only at hen hheld hskill hsel
  subst hen hheld
  cases hselkey : sel with
  | none =>
      rw [hselkey] at hsel
      exact absurd hsel (by simp [matches_event_code])
  | some s =>
      subst hselkey
      simp [process_event, hp, hskill, hsel, SkillItem.skill_key_pressed,
        SkillItem.select_key_pressed]

/-- C3 witness: a rule with `selectKey = skillKey = "F8"` and an `F8` press. -/
theorem same_code_rule_arms_without_self_trigger_witness :
    (process_event [⟨1, true, some "F8", some "F8", false⟩]
        ⟨"F8", .keyboard, true⟩).1 = [] ∧
    (process_event [⟨1, true, some "F8", some "F8", false⟩]
        ⟨"F8", .keyboard, true⟩).2 =
      [{ (⟨1, true, some "F8", some "F8", false⟩ : SkillItem) with
          select_key_held := true }] ∧
    (process_event
        [{ (⟨1, true, some "F8", some "F8", false⟩ : SkillItem) with
            select_key_held := true }]
        ⟨"F8", .keyboard, true⟩).1.map SkillItem.id =
      [SkillItem.id ⟨1, true, some "F8", some "F8", false⟩] :=
  same_code_rule_arms_without_self_trigger
    ⟨1, true, some "F8", some "F8", false⟩ ⟨"F8", .keyboard, true⟩
    (by decide) (by decide) (by decide) (by decide) (by decide)

/-- C4 counterexample: the armed rule `{selectKey Buttons4, skillKey
Buttons0, held}` is disabled; the `Buttons4` release while disabled is
skipped (the held flag survives); after re-enabling, a lone `Buttons0`
press *does* trigger the rule, contradicting the claim that it must not. -/
theorem disable_release_reenable_still_triggers_cex :
    (process_event [⟨1, false, some "Buttons4", some "Buttons0", true⟩]
        ⟨"Buttons4", .gamepad, false⟩).2 =
      [⟨1, false, some "Buttons4", some "Buttons0", true⟩] ∧
    (process_event [⟨1, true, some "Buttons4", some "Buttons0", true⟩]
        ⟨"Buttons0", .gamepad, true⟩).1.map SkillItem.id = [1] ∧
    (process_event [⟨1, true, some "Buttons4", some "Buttons0", true⟩]
        ⟨"Buttons0", .gamepad, true⟩).1 ≠ [] := by
  refine ⟨by decide, by decide, by decide⟩

/-- C4 amended: a combo rule armed when it is disabled keeps its armed state:
release events are skipped for disabled rules, so the select-key release
while disabled leaves the held flag set, and once re-enabled a press of the
skill key alone does trigger the rule (no fresh sequence is required). -/
theorem disable_preserves_armed_state (item : SkillItem) (r p : InputEvent)
    (hen : item.is_enabled = true)
    (hheld : item.select_key_held = true)
    (hr : r.pressed = false)
    (hp : p.pressed = true)
    (hrsel : matches_event_code item.select_key r = true)
    (hskill : matches_event_code item.skill_key p = true) :
    (process_event [{ item with is_enabled := false }] r).2 =
      [{ item with is_enabled := false }] ∧
    (process_event
        [{ ({ item with is_enabled := false } : SkillItem) with
            is_enabled := true }] p).1.map SkillItem.id = [item.id] := by
  obtain ⟨i, en, sel, sk, held⟩ := item
  simp only at hen hheld hskill
  subst hen hheld
  constructor
  · simp [process_event, hr]
  · simp [process_event, hp, hskill, SkillItem.skill_key_pressed]

/-- C4 witness for the amended statement: the concrete armed
`Buttons4`/`Buttons0` rule. -/
theorem disable_preserves_armed_state_witness :
    (process_event
        [{ (⟨2, true, some "Buttons4", some "Buttons0", true⟩ : SkillItem)
            with is_enabled := false }]
        ⟨"Buttons4", .gamepad, false⟩).2 =
      [{ (⟨2, true, some "Buttons4", some "Buttons0", true⟩ : SkillItem)
          with is_enabled := false }] ∧
    (process_event
        [{ ({ (⟨2, true, some "Buttons4", some "Buttons0", true⟩ : SkillItem)
              with is_enabled := false } : SkillItem) with
            is_enabled := true }]
        ⟨"Buttons0", .gamepad, true⟩).1.map SkillItem.id =
      [SkillItem.id ⟨2, true, some "Buttons4", some "Buttons0", true⟩] :=
  disable_preserves_armed_state
    ⟨2, true, some "Buttons4", some "Buttons0", true⟩
    ⟨"Buttons4", .gamepad, false⟩ ⟨"Buttons0", .gamepad, true⟩
    (by decide) (by decide) (by decide) (by decide) (by decide) (by decide)
